import Mathlib

/-!
# soundCode — verification of the turn-coordination layer

A shallow embedding of the coordination logic of the soundCode VS Code extension:

* `buildContextForPrompt` (WorkspaceService): the bounded-size context blob
  builder, modelled over JS strings as `List Char` so that `length`,
  `substring` and concatenation match the JavaScript operations exactly.
* `GeminiLiveClient`: session state, the `requestModelResponse` turn-completion
  protocol (callback swap, one-shot resolution, 30 s timer), `interrupt`,
  `disconnect`.
* The webview script (`media/webview.js`): the send-button debounce logic,
  the incoming-message handler and the timers it schedules.
* `SoundCodeViewProvider`: the coordinator handlers `handleInterrupt`,
  `handleHardStop`, `handleSendToModel`, `startRecording`.

Asynchronous effects (WebSocket sends, timers, subprocesses) are modelled by
explicit event lists and environment records describing the outcome of each
awaited operation; the single-threaded JS event loop makes each handler an
atomic state transition.
-/

/-! ## JS strings for the context builder -/

/-- JavaScript strings, modelled as lists of (UTF-16-ish) characters so that
`length`, `substring` and `+` are the literal list operations. -/
abbrev JStr := List Char

/-- JS `s.substring(0, n)`: a negative `n` is clamped to `0`, an `n` past the
end is clamped to the length. -/
def jsSubstring (s : JStr) (n : Int) : JStr := s.take n.toNat

/-! ## WorkspaceService.buildContextForPrompt -/

/-- The slice of `FileInfo` that `buildContextForPrompt` reads
(`relativePath`, `language`, `content`); `content` is `none` when the field
is absent. -/
structure FileInfo where
  relativePath : JStr
  language : JStr
  content : Option JStr
deriving DecidableEq, Repr

/-- The slice of `WorkspaceContext` that `buildContextForPrompt` reads. -/
structure WorkspaceCtx where
  workspaceName : JStr
  selectedText : Option JStr
  activeFile : Option FileInfo
deriving DecidableEq, Repr

/-- Template `## Workspace: ${name}\n\n`. -/
def workspaceHeader (name : JStr) : JStr :=
  "## Workspace: ".data ++ name ++ "\n\n".data

/-- Template `### Selected Text:\n\`\`\`\n${sel}\n\`\`\`\n\n` -/
def selectedSection (sel : JStr) : JStr :=
  "### Selected Text:\n```\n".data ++ sel ++ "\n```\n\n".data

/-- The `\n... (truncated)` marker appended to clipped file contents. -/
def truncMarker : JStr := "\n... (truncated)".data

/-- Translation of `content.length > remainingChars - 200 ? content.substring(0, remainingChars - 200) + marker : content`. -/
def truncateContent (content : JStr) (remaining : Int) : JStr :=
  if (content.length : Int) > remaining - 200 then
    jsSubstring content (remaining - 200) ++ truncMarker
  else content

/-- Template `### Currently Active File: ${path}\nLanguage: ${lang}\n\`\`\`${lang}\n${tc}\n\`\`\`\n\n` -/
def activeSection (f : FileInfo) (tc : JStr) : JStr :=
  "### Currently Active File: ".data ++ f.relativePath ++ "\nLanguage: ".data ++ f.language
    ++ "\n```".data ++ f.language ++ "\n".data ++ tc ++ "\n```\n\n".data

/-- Template `### File: ${path}\n\`\`\`${lang}\n${tc}\n\`\`\`\n\n` -/
def fileSection (f : FileInfo) (tc : JStr) : JStr :=
  "### File: ".data ++ f.relativePath ++ "\n```".data ++ f.language
    ++ "\n".data ++ tc ++ "\n```\n\n".data

/-- The `for (const file of files)` loop over the attached context files:
a file is appended when its `content` is truthy and more than 500 characters
of budget remain; after appending, the loop `break`s once the budget is
spent. Returns the accumulated string and the remaining budget. -/
def addContextFiles : List FileInfo → JStr → Int → JStr × Int
  | [], acc, remaining => (acc, remaining)
  | f :: rest, acc, remaining =>
    match f.content with
    | some content =>
      if content ≠ [] ∧ remaining > 500 then
        let sec := fileSection f (truncateContent content remaining)
        let acc1 := acc ++ sec
        let r1 := remaining - (sec.length : Int)
        if r1 ≤ 0 then (acc1, r1) else addContextFiles rest acc1 r1
      else addContextFiles rest acc remaining
    | none => addContextFiles rest acc remaining

/-- The selected-text step: appended only when `selectedText` is truthy, budget
remains, and the section fits entirely. -/
def buildBaseSel (s1 : JStr) (r1 : Int) (selT : Option JStr) : JStr × Int :=
  match selT with
  | some sel =>
    if sel ≠ [] ∧ r1 > 0 then
      if ((selectedSection sel).length : Int) ≤ r1 then
        (s1 ++ selectedSection sel, r1 - ((selectedSection sel).length : Int))
      else (s1, r1)
    else (s1, r1)
  | none => (s1, r1)

/-- The active-file step: appended whenever `content` is truthy and any budget
remains, with the content (not the markup) truncated to `remaining - 200`. -/
def buildBaseActive (s2 : JStr) (r2 : Int) (af : Option FileInfo) : JStr × Int :=
  match af with
  | some f =>
    match f.content with
    | some content =>
      if content ≠ [] ∧ r2 > 0 then
        let sec := activeSection f (truncateContent content r2)
        (s2 ++ sec, r2 - ((sec.length : Int)))
      else (s2, r2)
    | none => (s2, r2)
  | none => (s2, r2)

/-- The workspace part of `buildContextForPrompt`: header (unconditionally),
then selected text, then active file, threading `remainingChars`. -/
def buildBase (octx : Option WorkspaceCtx) (maxChars : Int) : JStr × Int :=
  match octx with
  | none => ([], maxChars)
  | some ctx =>
    let s1 := workspaceHeader ctx.workspaceName
    let r1 : Int := maxChars - (s1.length : Int)
    let p2 := buildBaseSel s1 r1 ctx.selectedText
    buildBaseActive p2.1 p2.2 ctx.activeFile

/-- Translation of `WorkspaceService.buildContextForPrompt(contextFiles, maxChars)`.
`octx` is the result of `getContext()` and `files` the result of
`readFiles(contextFiles)` (identifiers that failed to read are dropped by
`readFiles`, so an all-unreadable non-empty identifier list behaves like the
empty list here). -/
def buildContextForPrompt (octx : Option WorkspaceCtx) (files : List FileInfo)
    (maxChars : Int) : JStr :=
  let base := buildBase octx maxChars
  if files ≠ [] ∧ base.2 > 0 then (addContextFiles files base.1 base.2).1 else base.1

/-- Length of the workspace header, `0` when no workspace is open. -/
def headerSlop : Option WorkspaceCtx → Nat
  | none => 0
  | some ctx => (workspaceHeader ctx.workspaceName).length

/-- Markup overhead of the active-file section: its fixed text, path and
language tags (the section with empty content) plus the truncation marker. -/
def activeSlopF : Option FileInfo → Nat
  | none => 0
  | some f => (activeSection f []).length + truncMarker.length

/-- Active-file markup overhead of the whole workspace context. -/
def activeSlop : Option WorkspaceCtx → Nat
  | none => 0
  | some ctx => activeSlopF ctx.activeFile

/-- Total markup overhead of the attached-file sections. -/
def filesSlop (files : List FileInfo) : Nat :=
  (files.map (fun f => (fileSection f []).length + truncMarker.length)).sum

/-! ## GeminiLiveClient -/

/-- The mutable fields of `GeminiLiveClient` the claims depend on:
`connected` stands for `ws !== null && ws.readyState === OPEN`; the two
buffers are `currentTranscription` and `currentModelResponse`.
(The `workspaceContext` field and the API key are not read by any claim.) -/
structure GeminiState where
  connected : Bool
  currentTranscription : String
  currentModelResponse : String
deriving DecidableEq, Repr

/-- Method `resetTranscription()`. -/
def GeminiState.resetTranscription (g : GeminiState) : GeminiState :=
  { g with currentTranscription := "" }

/-- Method `resetModelResponse()`. -/
def GeminiState.resetModelResponse (g : GeminiState) : GeminiState :=
  { g with currentModelResponse := "" }

/-- Method `disconnect()`: closes and drops the WebSocket and clears both buffers. -/
def GeminiState.disconnectOp (g : GeminiState) : GeminiState :=
  { g with connected := false, currentTranscription := "", currentModelResponse := "" }

/-- Messages the client writes to the WebSocket. -/
inductive WireMsg
  /-- Message `realtimeInput` with an empty `mediaChunks` list (end of audio). -/
  | audioEnd
  /-- Message `clientContent` with `turnComplete: true` carrying the given user text. -/
  | endTurn (text : String)
  /-- The 10 ms silent chunk sent by `interrupt()`. -/
  | silenceChunk
deriving DecidableEq, Repr

/-- Method `interrupt()`: a no-op when not connected; otherwise clears the model
response, sends the silent chunk, and clears the transcription. -/
def GeminiState.interruptOp (g : GeminiState) : GeminiState × List WireMsg :=
  if g.connected = false then (g, [])
  else ({ g with currentModelResponse := "", currentTranscription := "" },
        [WireMsg.silenceChunk])

/-- The fallback user text sent when the accumulated transcription is empty. -/
def fallbackPrompt : String := "Hello, please respond to me."

/-- A settlement of the `requestModelResponse` promise. -/
inductive Settle
  | resolveWith (text : String)
  | rejectWith (message : String)
deriving DecidableEq, Repr

/-- The one-shot listener installed by `requestModelResponse`:
`resolvedFlag` is the `resolved` local, `callbackSwapped` is true while the
temporary `onModelResponse` wrapper is still installed. -/
structure PendingReq where
  resolvedFlag : Bool
  callbackSwapped : Bool
deriving DecidableEq, Repr

/-- Where `requestModelResponse` stands after its synchronous prologue:
either already settled (with the swap state of the callback at that moment),
or awaiting events with a timer armed for `timerMs` milliseconds. -/
inductive ReqPhase
  | settled (outcome : Settle) (callbackSwapped : Bool)
  | awaiting (p : PendingReq) (timerMs : Nat)
deriving DecidableEq, Repr

/-- Whether each of the two `ws.send` calls in `requestModelResponse` throws. -/
structure WireEnv where
  audioEndFails : Bool
  endTurnFails : Bool
deriving DecidableEq, Repr

/-- The synchronous prologue of `requestModelResponse()`: reject when not
connected; otherwise clear the model response, swap the `onModelResponse`
callback, send the audio-end message, send the turn-complete message carrying
`currentTranscription || fallbackPrompt`, and arm the 30 s timer. A `send`
that throws rejects at once — with the swapped callback still installed. -/
def requestModelResponseSetup (g : GeminiState) (env : WireEnv) :
    GeminiState × List WireMsg × ReqPhase :=
  if g.connected = false then
    (g, [], ReqPhase.settled (Settle.rejectWith "WebSocket not connected") false)
  else
    let g1 : GeminiState := { g with currentModelResponse := "" }
    if env.audioEndFails then
      (g1, [], ReqPhase.settled
        (Settle.rejectWith "Failed to send audio end message") true)
    else
      let turnText :=
        if g1.currentTranscription = "" then fallbackPrompt else g1.currentTranscription
      if env.endTurnFails then
        (g1, [WireMsg.audioEnd], ReqPhase.settled
          (Settle.rejectWith "Failed to send turn complete message") true)
      else
        (g1, [WireMsg.audioEnd, WireMsg.endTurn turnText],
         ReqPhase.awaiting ⟨false, true⟩ 30000)

/-- Events that can reach a pending `requestModelResponse`: a streamed
`modelTurn` part, the terminal `turnComplete` signal, or the 30 s timer. -/
inductive ReqEv
  | modelPart (text : String)
  | turnComplete
  | timerFire
deriving DecidableEq, Repr

/-- One event against a pending request. A `modelPart` appends to the
response buffer and invokes the callback with `isFinal = false` (never
settling). `turnComplete` invokes it with `isFinal = true`: the swapped
wrapper settles once, restoring the original callback. The timer, when the
request is unresolved, restores the callback and resolves with the partial
response if non-empty, else rejects with the timeout error. -/
def pendingStep (g : GeminiState) (p : PendingReq) :
    ReqEv → GeminiState × PendingReq × Option Settle
  | ReqEv.modelPart t =>
    ({ g with currentModelResponse := g.currentModelResponse ++ t }, p, none)
  | ReqEv.turnComplete =>
    if p.callbackSwapped = true ∧ p.resolvedFlag = false then
      (g, ⟨true, false⟩, some (Settle.resolveWith g.currentModelResponse))
    else (g, p, none)
  | ReqEv.timerFire =>
    if p.resolvedFlag = false then
      (g, ⟨true, false⟩,
       some (if g.currentModelResponse ≠ "" then
               Settle.resolveWith g.currentModelResponse
             else
               Settle.rejectWith "Model response timeout - no response received"))
    else (g, p, none)

/-- Result of running a pending request against a list of events. -/
structure PendingRun where
  st : GeminiState
  req : PendingReq
  settles : List Settle
deriving DecidableEq, Repr

/-- Run a pending request over a serialized event list, collecting every
settlement call made on the promise. -/
def runPending (g : GeminiState) (p : PendingReq) : List ReqEv → PendingRun
  | [] => ⟨g, p, []⟩
  | e :: rest =>
    let step := pendingStep g p e
    let r := runPending step.1 step.2.1 rest
    match step.2.2 with
    | some out => ⟨r.st, r.req, out :: r.settles⟩
    | none => r

/-- Concatenation of streamed fragments, in arrival order. -/
def joinParts : List String → String
  | [] => ""
  | s :: rest => s ++ joinParts rest

/-! ## Webview script (media/webview.js) -/

/-- The status pill / `messageStatus` display states. -/
inductive PillStatus
  | ready | listening | paused | thinkingSt | speaking | interruptedSt
  | finishing | errorSt
deriving DecidableEq, Repr

/-- Mutable state of the webview script: the flags, the displayed
transcription, the debounce timestamp, and the visibility of the four
buttons. -/
structure WebState where
  isRecording : Bool
  isDictationActive : Bool
  isSending : Bool
  isModelResponding : Bool
  currentTranscription : String
  lastTranscriptionUpdate : Nat
  status : PillStatus
  startBtnHidden : Bool
  sendBtnHidden : Bool
  interruptBtnHidden : Bool
  stopBtnHidden : Bool
deriving DecidableEq, Repr

/-- Messages the webview posts to the extension host. -/
inductive ExtMsg
  | startDictation
  | stopDictation
  | sendToModel (text : String)
  | interruptReq
  | hardStopReq
deriving DecidableEq, Repr

/-- Timers the webview schedules (delay in ms, task). -/
inductive TimerTask
  /-- The deferred-send retry closure of the send-button handler. -/
  | retrySend
  /-- The 500 ms interrupted-to-listening status transition. -/
  | statusToListening
deriving DecidableEq, Repr

/-- Constant `sendDebounceMs = 300`. -/
def sendDebounceMs : Nat := 300

/-- JS whitespace for `String.prototype.trim` (the common characters). -/
def jsWhitespace (c : Char) : Bool :=
  c = ' ' || c = '\t' || c = '\n' || c = '\r'

/-- JS `s.trim()`. -/
def jsTrim (s : String) : String :=
  String.mk (((s.data.dropWhile jsWhitespace).reverse.dropWhile jsWhitespace).reverse)

/-- The `sendBtn` click handler: refuse while `isSending`; refuse when the
trimmed transcription is empty; defer with a single retry timer when inside
the quiescence window; otherwise mark sending, stop dictation if recording,
post the trimmed text, clear the voice box, and flip the UI to thinking. -/
def sendBtnClick (s : WebState) (now : Nat) :
    WebState × List ExtMsg × List (Nat × TimerTask) :=
  if s.isSending = true then (s, [], [])
  else if jsTrim s.currentTranscription = "" then (s, [], [])
  else if now - s.lastTranscriptionUpdate < sendDebounceMs then
    ({ s with status := PillStatus.finishing }, [],
     [(sendDebounceMs - (now - s.lastTranscriptionUpdate) + 50, TimerTask.retrySend)])
  else
    let userMessage := jsTrim s.currentTranscription
    let stopMsgs : List ExtMsg :=
      if s.isRecording = true then [ExtMsg.stopDictation] else []
    ({ s with isSending := true, isRecording := false, currentTranscription := "",
              status := PillStatus.thinkingSt, isModelResponding := true,
              isDictationActive := false, startBtnHidden := true,
              sendBtnHidden := true, interruptBtnHidden := false },
     stopMsgs ++ [ExtMsg.sendToModel userMessage], [])

/-- The retry closure scheduled by the debounce branch:
`if (!isSending && currentTranscription.trim()) sendBtn.click()`. -/
def retryFire (s : WebState) (now : Nat) :
    WebState × List ExtMsg × List (Nat × TimerTask) :=
  if s.isSending = false ∧ jsTrim s.currentTranscription ≠ "" then sendBtnClick s now
  else (s, [], [])

/-- Messages the extension posts into the webview. -/
inductive UiMsg
  | recordingStarted
  | recordingStopped
  | transcriptionUpdate (text : String)
  | audioData
  | thinking
  | modelResponse (text : String)
  | audioComplete
  | errorMsg (text : String)
  | fileSearchResults (files : List String)
  | interrupted
  | hardStopped
deriving DecidableEq, Repr

/-- The `window` message handler of the webview; returns the new state and any
timers scheduled (the 500 ms interrupted-to-listening transition). -/
def webviewOnMessage (s : WebState) (now : Nat) :
    UiMsg → WebState × List (Nat × TimerTask)
  | UiMsg.recordingStarted =>
    ({ s with isRecording := true, isDictationActive := true,
              status := PillStatus.listening,
              sendBtnHidden := false, stopBtnHidden := false }, [])
  | UiMsg.recordingStopped =>
    let s1 := { s with isRecording := false, status := PillStatus.paused }
    (if s1.isDictationActive = true then { s1 with sendBtnHidden := false } else s1, [])
  | UiMsg.transcriptionUpdate t =>
    ({ s with currentTranscription := t, lastTranscriptionUpdate := now }, [])
  | UiMsg.thinking => ({ s with status := PillStatus.thinkingSt }, [])
  | UiMsg.modelResponse t =>
    let s1 := { s with isModelResponding := false }
    (if t ≠ "" then { s1 with status := PillStatus.speaking } else s1, [])
  | UiMsg.audioComplete =>
    ({ s with status := PillStatus.ready, isSending := false,
              startBtnHidden := false, interruptBtnHidden := true,
              stopBtnHidden := true }, [])
  | UiMsg.errorMsg _ =>
    ({ s with status := PillStatus.errorSt, isModelResponding := false,
              isSending := false, startBtnHidden := false,
              interruptBtnHidden := true }, [])
  | UiMsg.interrupted =>
    ({ s with isModelResponding := false, isSending := false, isRecording := true,
              isDictationActive := true, currentTranscription := "",
              status := PillStatus.interruptedSt, startBtnHidden := false,
              sendBtnHidden := false, stopBtnHidden := false,
              interruptBtnHidden := true },
     [(500, TimerTask.statusToListening)])
  | UiMsg.hardStopped =>
    ({ s with isRecording := false, isDictationActive := false,
              isModelResponding := false, isSending := false,
              currentTranscription := "", status := PillStatus.ready,
              startBtnHidden := false, sendBtnHidden := true,
              interruptBtnHidden := true, stopBtnHidden := true }, [])
  | UiMsg.audioData => (s, [])
  | UiMsg.fileSearchResults _ => (s, [])

/-- Fire a scheduled webview timer at time `now`. -/
def fireTask (s : WebState) (now : Nat) :
    TimerTask → WebState × List ExtMsg × List (Nat × TimerTask)
  | TimerTask.retrySend => retryFire s now
  | TimerTask.statusToListening => ({ s with status := PillStatus.listening }, [], [])

/-- Number of `sendToModel` posts in a message list. -/
def countSendToModel (l : List ExtMsg) : Nat :=
  l.countP (fun m => match m with | ExtMsg.sendToModel _ => true | _ => false)

/-! ## SoundCodeViewProvider (the coordinator) -/

/-- State of the coordinator: the Gemini client (if constructed), whether the
capture subprocess is running, whether the playback subprocess is running. -/
structure Coord where
  gemini : Option GeminiState
  capturing : Bool
  playing : Bool
deriving DecidableEq, Repr

/-- The client object `startRecording` constructs before `connect()`
resolves: not yet connected, both buffers empty. -/
def freshGemini : GeminiState :=
  { connected := false, currentTranscription := "", currentModelResponse := "" }

/-- Method `handleInterrupt()`: always stops playback; when a connected client
exists, resets the transcription, performs `interrupt()`, posts
`interrupted`, and starts audio capture (which posts `recordingStarted`);
otherwise does nothing further. -/
def handleInterrupt (c : Coord) : Coord × List UiMsg :=
  let c1 : Coord := { c with playing := false }
  match c1.gemini with
  | some g =>
    if g.connected = true then
      let g1 := g.resetTranscription
      let g2 := (g1.interruptOp).1
      ({ c1 with gemini := some g2, capturing := true },
       [UiMsg.interrupted, UiMsg.recordingStarted])
    else (c1, [])
  | none => (c1, [])

/-- Method `handleHardStop()`: stops capture and playback, disconnects and discards
the client when one exists, posts `hardStopped`. -/
def handleHardStop (c : Coord) : Coord × List UiMsg :=
  let c1 : Coord := { c with capturing := false, playing := false }
  let c2 : Coord :=
    match c1.gemini with
    | some g =>
      let _closed := g.disconnectOp
      { c1 with gemini := none }
    | none => c1
  (c2, [UiMsg.hardStopped])

/-- Method `startRecording()`: with a connected client, just start capture (posting
`recordingStarted`); otherwise construct a fresh client (capture starts later,
from the `onConnected` callback, so no message is posted yet). The
workspace-context blob built and attached before `connect()` is not read by
any claim and is elided here. -/
def startRecordingStep (c : Coord) : Coord × List UiMsg :=
  match c.gemini with
  | some g =>
    if g.connected = true then
      ({ c with capturing := true }, [UiMsg.recordingStarted])
    else ({ c with gemini := some freshGemini }, [])
  | none => ({ c with gemini := some freshGemini }, [])

/-- Outcomes of the operations `handleSendToModel` awaits:
the `requestModelResponse` promise, whether ElevenLabs is configured, whether
`textToSpeech` returned a buffer (vs `null`), and whether playback resolved
(`playbackErr` is the rejection text otherwise). -/
structure SendEnv where
  turn : Except String String
  ttsConfigured : Bool
  ttsBuffer : Bool
  playbackOk : Bool
  playbackErr : String
deriving Repr

/-- External calls `handleSendToModel` can make after the turn resolves. -/
inductive Eff
  | ttsCall (text : String)
  | playCall
deriving DecidableEq, Repr

/-- Method `handleSendToModel()`: not-connected sends bail out with a bare
`audioComplete`; otherwise capture is stopped, `thinking` is posted and the
turn is awaited. A rejected turn resets the transcription and posts an error.
An empty resolved response returns with no further message. A non-empty
response is displayed, synthesized and played when possible, and the path
ends with `audioComplete` (a playback rejection is caught and posted as an
error instead). -/
def handleSendToModel (c : Coord) (env : SendEnv) : Coord × List UiMsg × List Eff :=
  match c.gemini with
  | none => (c, [UiMsg.audioComplete], [])
  | some g =>
    if g.connected = false then (c, [UiMsg.audioComplete], [])
    else
      let c1 : Coord := { c with capturing := false }
      match env.turn with
      | Except.error e =>
        ({ c1 with gemini := some g.resetTranscription },
         [UiMsg.thinking, UiMsg.errorMsg ("Failed to get response: " ++ e)], [])
      | Except.ok text =>
        if text = "" then
          ({ c1 with gemini := some { g with currentModelResponse := "" } },
           [UiMsg.thinking], [])
        else
          let g1 : GeminiState := { g with currentModelResponse := text }
          if env.ttsConfigured = true then
            if env.ttsBuffer = true then
              if env.playbackOk = true then
                ({ c1 with gemini := some g1.resetTranscription, playing := false },
                 [UiMsg.thinking, UiMsg.modelResponse text, UiMsg.audioComplete],
                 [Eff.ttsCall text, Eff.playCall])
              else
                ({ c1 with gemini := some g1.resetTranscription, playing := false },
                 [UiMsg.thinking, UiMsg.modelResponse text,
                  UiMsg.errorMsg ("Failed to get response: " ++ env.playbackErr)],
                 [Eff.ttsCall text, Eff.playCall])
            else
              ({ c1 with gemini := some g1.resetTranscription },
               [UiMsg.thinking, UiMsg.modelResponse text, UiMsg.audioComplete],
               [Eff.ttsCall text])
          else
            ({ c1 with gemini := some g1.resetTranscription },
             [UiMsg.thinking, UiMsg.modelResponse text, UiMsg.audioComplete], [])

/-! ## Concrete instances used by counterexamples and witnesses -/

/-- Active file of the C1 counterexample: a 400-character relative path and a
60000-character body. -/
def cxFile : FileInfo :=
  { relativePath := List.replicate 400 'p', language := "ts".data,
    content := some (List.replicate 60000 'c') }

/-- Workspace of the C1 counterexample. -/
def cxCtx : WorkspaceCtx :=
  { workspaceName := "W".data, selectedText := none, activeFile := some cxFile }

/-- Both `ws.send` calls succeed. -/
def okWire : WireEnv := ⟨false, false⟩

/-- Client state of the C9 counterexample: connected, empty transcription. -/
def g9 : GeminiState := ⟨true, "", "old"⟩

/-- Client state of the C10 counterexample. -/
def g10 : GeminiState := ⟨true, "hi there", ""⟩

/-- The first `ws.send` (audio end) throws. -/
def failWire : WireEnv := ⟨true, false⟩

/-- Webview state of the C2 counterexample: listening, transcription updated
at t = 1000 ms. -/
def w2 : WebState :=
  ⟨true, true, false, false, "hi there", 1000, PillStatus.listening,
   false, false, true, false⟩

/-- Coordinator state of the C4 counterexample: a client whose socket has
dropped, with a non-empty transcription buffer, playback active. -/
def c4state : Coord := ⟨some ⟨false, "pending words", "partial"⟩, false, true⟩

/-- Coordinator state of the C5 failing input: connected, mid-dictation. -/
def c5coord : Coord := ⟨some ⟨true, "Explain recursion", ""⟩, true, false⟩

/-- Environment of the C5 failing input: the turn resolves with an empty
response text (turn complete, nothing accumulated). -/
def c5env : SendEnv := ⟨Except.ok "", true, true, true, ""⟩

/-- Coordinator state of the C6 counterexample: no client at all. -/
def c6coord : Coord := ⟨none, false, false⟩

/-- Environment of the C6 counterexample (irrelevant: the send bails first). -/
def c6env : SendEnv := ⟨Except.ok "hello", true, true, true, ""⟩

lemma truncMarker_length : truncMarker.length = 16 := by decide

lemma activeSection_length (f : FileInfo) (tc : JStr) :
    (activeSection f tc).length = (activeSection f []).length + tc.length := by
  simp [activeSection, List.length_append]
  omega

lemma fileSection_length (f : FileInfo) (tc : JStr) :
    (fileSection f tc).length = (fileSection f []).length + tc.length := by
  simp [fileSection, List.length_append]
  omega

lemma truncateContent_length (content : JStr) (r : Int) :
    ((truncateContent content r).length : Int) ≤ r - 200 + 16 ∨
      ((truncateContent content r).length : Int) ≤ 16 := by
  unfold truncateContent jsSubstring
  split
  next h =>
    simp only [List.length_append, List.length_take, truncMarker_length]
    push_cast
    omega
  next h =>
    left
    omega

lemma buildBaseSel_len (s : JStr) (r : Int) (o : Option JStr) :
    ((buildBaseSel s r o).1.length : Int) = s.length + (r - (buildBaseSel s r o).2) := by
  unfold buildBaseSel
  split
  · split
    · split
      · simp only [List.length_append, Nat.cast_add]
        ring
      · simp
    · simp
  · simp

lemma buildBaseSel_lb (s : JStr) (r : Int) (o : Option JStr) :
    min r 0 ≤ (buildBaseSel s r o).2 := by
  unfold buildBaseSel
  split
  · split
    · split
      next hfit => simp only []; omega
      next hfit => simp only []; omega
    · simp only []; omega
  · simp only []; omega

lemma buildBaseActive_len (s : JStr) (r : Int) (af : Option FileInfo) :
    ((buildBaseActive s r af).1.length : Int)
      = s.length + (r - (buildBaseActive s r af).2) := by
  unfold buildBaseActive
  split
  · split
    · split
      · simp only [List.length_append, Nat.cast_add]
        ring
      · simp
    · simp
  · simp

lemma buildBaseActive_lb (s : JStr) (r : Int) (af : Option FileInfo) :
    min r 0 - (activeSlopF af : Int) ≤ (buildBaseActive s r af).2 := by
  unfold buildBaseActive
  split
  next f =>
    split
    next content heqc =>
      split
      next h =>
        have hsec := activeSection_length f (truncateContent content r)
        have htc := truncateContent_length content r
        simp only [activeSlopF, truncMarker_length]
        push_cast [hsec]
        omega
      next h =>
        simp only [activeSlopF, truncMarker_length]
        push_cast
        omega
    next heqc =>
      simp only [activeSlopF, truncMarker_length]
      push_cast
      omega
  next =>
    simp only [activeSlopF]
    omega

lemma buildBase_len (octx : Option WorkspaceCtx) (maxChars : Int) :
    ((buildBase octx maxChars).1.length : Int)
      = maxChars - (buildBase octx maxChars).2 := by
  unfold buildBase
  split
  · simp
  next ctx =>
    have h1 := buildBaseSel_len (workspaceHeader ctx.workspaceName)
      (maxChars - ((workspaceHeader ctx.workspaceName).length : Int)) ctx.selectedText
    have h2 := buildBaseActive_len
      (buildBaseSel (workspaceHeader ctx.workspaceName)
        (maxChars - ((workspaceHeader ctx.workspaceName).length : Int)) ctx.selectedText).1
      (buildBaseSel (workspaceHeader ctx.workspaceName)
        (maxChars - ((workspaceHeader ctx.workspaceName).length : Int)) ctx.selectedText).2
      ctx.activeFile
    dsimp only
    omega

lemma buildBase_lb (octx : Option WorkspaceCtx) (maxChars : Int) :
    min maxChars 0 - (headerSlop octx : Int) - (activeSlop octx : Int)
      ≤ (buildBase octx maxChars).2 := by
  unfold buildBase
  split
  · simp [headerSlop, activeSlop]
  next ctx =>
    have h1 := buildBaseSel_lb (workspaceHeader ctx.workspaceName)
      (maxChars - ((workspaceHeader ctx.workspaceName).length : Int)) ctx.selectedText
    have h2 := buildBaseActive_lb
      (buildBaseSel (workspaceHeader ctx.workspaceName)
        (maxChars - ((workspaceHeader ctx.workspaceName).length : Int)) ctx.selectedText).1
      (buildBaseSel (workspaceHeader ctx.workspaceName)
        (maxChars - ((workspaceHeader ctx.workspaceName).length : Int)) ctx.selectedText).2
      ctx.activeFile
    dsimp only
    simp only [headerSlop, activeSlop]
    omega

lemma filesSlop_cons (f : FileInfo) (rest : List FileInfo) :
    filesSlop (f :: rest)
      = (fileSection f []).length + truncMarker.length + filesSlop rest := by
  simp [filesSlop]

lemma addContextFiles_len (files : List FileInfo) :
    ∀ (acc : JStr) (r : Int),
      ((addContextFiles files acc r).1.length : Int)
        = acc.length + (r - (addContextFiles files acc r).2) := by
  induction files with
  | nil => intro acc r; simp [addContextFiles]
  | cons f rest ih =>
    intro acc r
    unfold addContextFiles
    split
    next content heqc =>
      split
      next h =>
        dsimp only
        split
        next hstop =>
          simp only [List.length_append, Nat.cast_add]
          ring
        next hstop =>
          have hrec := ih (acc ++ fileSection f (truncateContent content r))
            (r - ((fileSection f (truncateContent content r)).length : Int))
          simp only [List.length_append, Nat.cast_add] at hrec ⊢
          omega
      next h => exact ih acc r
    next heqc => exact ih acc r

lemma addContextFiles_lb (files : List FileInfo) :
    ∀ (acc : JStr) (r : Int),
      min r 0 - (filesSlop files : Int) ≤ (addContextFiles files acc r).2 := by
  induction files with
  | nil => intro acc r; simp [addContextFiles, filesSlop]
  | cons f rest ih =>
    intro acc r
    unfold addContextFiles
    have hslop := filesSlop_cons f rest
    split
    next content heqc =>
      split
      next h =>
        have hsec := fileSection_length f (truncateContent content r)
        have htc := truncateContent_length content r
        dsimp only
        split
        next hstop =>
          push_cast [hslop, truncMarker_length] at *
          omega
        next hstop =>
          have hrec := ih (acc ++ fileSection f (truncateContent content r))
            (r - ((fileSection f (truncateContent content r)).length : Int))
          push_cast [hslop, truncMarker_length] at *
          omega
      next h =>
        have hrec := ih acc r
        push_cast [hslop] at *
        omega
    next heqc =>
      have hrec := ih acc r
      push_cast [hslop] at *
      omega

/-- Claim C1, amended: for a non-negative budget the blob length is bounded by
`maxChars` plus the workspace-header length plus the markup-plus-marker
overhead of the active-file section and of each attached-file section (the
header is appended with no budget check, and section markup is not charged
against the 200-character truncation reserve). -/
theorem buildContext_length_bound (octx : Option WorkspaceCtx) (files : List FileInfo)
    (maxChars : Int) (h : 0 ≤ maxChars) :
    ((buildContextForPrompt octx files maxChars).length : Int)
      ≤ maxChars + headerSlop octx + activeSlop octx + filesSlop files := by
  unfold buildContextForPrompt
  have hb1 := buildBase_len octx maxChars
  have hb2 := buildBase_lb octx maxChars
  dsimp only
  split
  next hguard =>
    have ha1 := addContextFiles_len files (buildBase octx maxChars).1 (buildBase octx maxChars).2
    have ha2 := addContextFiles_lb files (buildBase octx maxChars).1 (buildBase octx maxChars).2
    omega
  next hguard =>
    omega

/-- Claim C1, counterexample: with the default 50000-character budget, a
workspace named `W` whose active file has a 400-character relative path and a
60000-character body yields a 50269-character blob — the budget is exceeded. -/
theorem buildContext_exceeds_budget :
    50000 < (buildContextForPrompt (some cxCtx) [] 50000).length := by
  have h17 : ((workspaceHeader "W".data).length : Int) = 17 := by decide
  have hcond : ((List.replicate 60000 'c').length : Int) > 49983 - 200 := by
    rw [List.length_replicate]; norm_num
  have htc : (truncateContent (List.replicate 60000 'c') 49983).length = 49799 := by
    unfold truncateContent jsSubstring
    rw [if_pos hcond, List.length_append, List.length_take, List.length_replicate,
      truncMarker_length]
    decide
  have hW : (workspaceHeader ['W']).length = 17 := by decide
  have hA : (activeSection
      ⟨List.replicate 400 'p', ['t', 's'], some (List.replicate 60000 'c')⟩ []).length = 453 := by
    unfold activeSection
    simp only [List.length_append, List.length_replicate, List.length_nil]
    decide
  unfold buildContextForPrompt
  dsimp only
  rw [if_neg (by simp)]
  unfold buildBase buildBaseSel buildBaseActive
  dsimp only [cxCtx, cxFile]
  rw [h17]
  norm_num
  rw [activeSection_length, htc, hW, hA]
  norm_num

theorem buildContext_length_bound_witness :
    (0 : Int) ≤ 50000 ∧
    ((buildContextForPrompt (some cxCtx) [] 50000).length : Int)
      ≤ 50000 + headerSlop (some cxCtx) + activeSlop (some cxCtx) + filesSlop [] :=
  ⟨by norm_num, buildContext_length_bound (some cxCtx) [] 50000 (by norm_num)⟩

/-! ## Lemmas about pending turn-completion requests -/

lemma runPending_append (l1 l2 : List ReqEv) : ∀ (g : GeminiState) (p : PendingReq),
    runPending g p (l1 ++ l2)
      = ⟨(runPending (runPending g p l1).st (runPending g p l1).req l2).st,
         (runPending (runPending g p l1).st (runPending g p l1).req l2).req,
         (runPending g p l1).settles
           ++ (runPending (runPending g p l1).st (runPending g p l1).req l2).settles⟩ := by
  induction l1 with
  | nil => intro g p; simp [runPending]
  | cons e rest ih =>
    intro g p
    simp only [List.cons_append, runPending]
    cases hs : (pendingStep g p e).2.2 <;> simp [hs, ih]

lemma runPending_modelParts (parts : List String) : ∀ (g : GeminiState) (p : PendingReq),
    runPending g p (parts.map ReqEv.modelPart)
      = ⟨{ g with currentModelResponse := g.currentModelResponse ++ joinParts parts }, p, []⟩ := by
  induction parts with
  | nil => intro g p; simp [runPending, joinParts]
  | cons t rest ih =>
    intro g p
    simp only [List.map_cons, runPending, pendingStep]
    rw [ih]
    simp [joinParts, String.append_assoc]

lemma runPending_resolved (evs : List ReqEv) : ∀ g : GeminiState,
    (runPending g ⟨true, false⟩ evs).req = ⟨true, false⟩ ∧
    (runPending g ⟨true, false⟩ evs).settles = [] := by
  induction evs with
  | nil => intro g; simp [runPending]
  | cons e rest ih =>
    intro g
    cases e <;> simp [runPending, pendingStep, ih]

lemma runPending_once (evs : List ReqEv) : ∀ g : GeminiState,
    ((runPending g ⟨false, true⟩ evs).settles = []
        ∧ (runPending g ⟨false, true⟩ evs).req = ⟨false, true⟩)
    ∨ ((runPending g ⟨false, true⟩ evs).settles.length = 1
        ∧ (runPending g ⟨false, true⟩ evs).req = ⟨true, false⟩) := by
  induction evs with
  | nil => intro g; left; simp [runPending]
  | cons e rest ih =>
    intro g
    cases e with
    | modelPart t =>
      simpa [runPending, pendingStep] using
        ih { g with currentModelResponse := g.currentModelResponse ++ t }
    | turnComplete =>
      right
      have hres := runPending_resolved rest g
      simp [runPending, pendingStep, hres.1, hres.2]
    | timerFire =>
      right
      have hres := runPending_resolved rest g
      simp [runPending, pendingStep, hres.1, hres.2]

/-! ## Claims about the turn-completion request -/

/-- Claim C3: if no terminal turn-complete signal arrives before the 30 s timer
(only streamed fragments do), the request resolves with the accumulated
partial text when non-empty and rejects with the timeout error when empty. -/
theorem requestModelResponse_timeout (g : GeminiState) (parts : List String)
    (hc : g.connected = true) :
    (requestModelResponseSetup g okWire).2.2 = ReqPhase.awaiting ⟨false, true⟩ 30000 ∧
    (requestModelResponseSetup g okWire).1 = { g with currentModelResponse := "" } ∧
    (runPending { g with currentModelResponse := "" } ⟨false, true⟩
        (parts.map ReqEv.modelPart ++ [ReqEv.timerFire])).settles
      = [ if joinParts parts ≠ "" then Settle.resolveWith (joinParts parts)
          else Settle.rejectWith "Model response timeout - no response received" ] := by
  refine ⟨?_, ?_, ?_⟩
  · simp [requestModelResponseSetup, okWire, hc]
  · simp [requestModelResponseSetup, okWire, hc]
  · rw [runPending_append, runPending_modelParts]
    simp [runPending, pendingStep]

theorem requestModelResponse_timeout_witness :
    (⟨true, "hi", ""⟩ : GeminiState).connected = true ∧
    ((requestModelResponseSetup ⟨true, "hi", ""⟩ okWire).2.2
        = ReqPhase.awaiting ⟨false, true⟩ 30000 ∧
     (requestModelResponseSetup ⟨true, "hi", ""⟩ okWire).1 = ⟨true, "hi", ""⟩ ∧
     (runPending ⟨true, "hi", ""⟩ ⟨false, true⟩
         ((["Recursion ", "is elegant."].map ReqEv.modelPart) ++ [ReqEv.timerFire])).settles
       = [ if joinParts ["Recursion ", "is elegant."] ≠ "" then
             Settle.resolveWith (joinParts ["Recursion ", "is elegant."])
           else Settle.rejectWith "Model response timeout - no response received" ]) :=
  ⟨rfl, requestModelResponse_timeout ⟨true, "hi", ""⟩ ["Recursion ", "is elegant."] rfl⟩

/-- Claim C9, counterexample: with an empty accumulated transcription the turn
submits the hardcoded fallback greeting, not the transcription text. -/
theorem requestStart_empty_fallback :
    (requestModelResponseSetup g9 okWire).2.1
      = [WireMsg.audioEnd, WireMsg.endTurn "Hello, please respond to me."] ∧
    g9.currentTranscription = "" ∧
    WireMsg.endTurn g9.currentTranscription ∉ (requestModelResponseSetup g9 okWire).2.1 := by
  decide

/-- Claim C9, amended: when the accumulated transcription is non-empty, the
request first signals end-of-audio and then submits exactly that text with the
turn-complete marker. -/
theorem requestModelResponse_protocol (g : GeminiState)
    (hc : g.connected = true) (ht : g.currentTranscription ≠ "") :
    (requestModelResponseSetup g okWire).2.1
      = [WireMsg.audioEnd, WireMsg.endTurn g.currentTranscription] ∧
    (requestModelResponseSetup g okWire).2.2 = ReqPhase.awaiting ⟨false, true⟩ 30000 := by
  constructor <;> simp [requestModelResponseSetup, okWire, hc, ht]

theorem requestModelResponse_protocol_witness :
    (⟨true, "Explain recursion", ""⟩ : GeminiState).connected = true ∧
    (⟨true, "Explain recursion", ""⟩ : GeminiState).currentTranscription ≠ "" ∧
    ((requestModelResponseSetup ⟨true, "Explain recursion", ""⟩ okWire).2.1
        = [WireMsg.audioEnd, WireMsg.endTurn "Explain recursion"] ∧
     (requestModelResponseSetup ⟨true, "Explain recursion", ""⟩ okWire).2.2
        = ReqPhase.awaiting ⟨false, true⟩ 30000) :=
  ⟨rfl, by decide,
   requestModelResponse_protocol ⟨true, "Explain recursion", ""⟩ rfl (by decide)⟩

/-- Claim C10, counterexample: the send-failure rejection path settles the
promise while the swapped `onModelResponse` callback is still installed. -/
theorem requestStart_reject_leaves_swapped :
    (requestModelResponseSetup g10 failWire).2.2
      = ReqPhase.settled (Settle.rejectWith "Failed to send audio end message") true := by
  decide

/-- Claim C10, amended: once pending, a request settles at most once (across
the turn-complete and timer paths), and a settlement leaves the resolved flag
set and the original callback restored. -/
theorem requestModelResponse_settles_once (g : GeminiState) (evs : List ReqEv) :
    (runPending g ⟨false, true⟩ evs).settles.length ≤ 1 ∧
    ((runPending g ⟨false, true⟩ evs).settles = []
      ∨ ((runPending g ⟨false, true⟩ evs).req.resolvedFlag = true
          ∧ (runPending g ⟨false, true⟩ evs).req.callbackSwapped = false)) := by
  rcases runPending_once evs g with ⟨h1, h2⟩ | ⟨h1, h2⟩
  · exact ⟨by simp [h1], Or.inl h1⟩
  · exact ⟨by omega, Or.inr (by simp [h2])⟩

theorem requestModelResponse_settles_once_witness :
    (runPending ⟨true, "x", "r"⟩ ⟨false, true⟩ [ReqEv.turnComplete, ReqEv.timerFire]).settles.length ≤ 1 ∧
    ((runPending ⟨true, "x", "r"⟩ ⟨false, true⟩ [ReqEv.turnComplete, ReqEv.timerFire]).settles = []
      ∨ ((runPending ⟨true, "x", "r"⟩ ⟨false, true⟩ [ReqEv.turnComplete, ReqEv.timerFire]).req.resolvedFlag = true
          ∧ (runPending ⟨true, "x", "r"⟩ ⟨false, true⟩ [ReqEv.turnComplete, ReqEv.timerFire]).req.callbackSwapped = false)) :=
  requestModelResponse_settles_once ⟨true, "x", "r"⟩ [ReqEv.turnComplete, ReqEv.timerFire]

/-! ## Claims about the send button and its debounce -/

/-- Claim C7: a send is refused while a send is in flight; refused when the
trimmed transcription is empty; and two clicks 10 ms apart from a quiescent,
non-empty state issue exactly one `sendToModel`. -/
theorem send_guards (s : WebState) (now : Nat)
    (hsend : s.isSending = false) (htr : jsTrim s.currentTranscription ≠ "")
    (hqu : sendDebounceMs ≤ now - s.lastTranscriptionUpdate) :
    (∀ (s2 : WebState) (n2 : Nat), s2.isSending = true → sendBtnClick s2 n2 = (s2, [], [])) ∧
    (∀ (s3 : WebState) (n3 : Nat), s3.isSending = false →
        jsTrim s3.currentTranscription = "" → sendBtnClick s3 n3 = (s3, [], [])) ∧
    countSendToModel ((sendBtnClick s now).2.1
        ++ (sendBtnClick (sendBtnClick s now).1 (now + 10)).2.1) = 1 := by
  refine ⟨?_, ?_, ?_⟩
  · intro s2 n2 h; simp [sendBtnClick, h]
  · intro s3 n3 h1 h2; simp [sendBtnClick, h1, h2]
  · have hlt : ¬ (now - s.lastTranscriptionUpdate < sendDebounceMs) := by omega
    simp only [sendBtnClick, hsend, htr, hlt]
    by_cases hr : s.isRecording = true <;>
      simp [hr, countSendToModel, List.countP_cons, List.countP_nil]

theorem send_guards_witness :
    ((⟨true, true, false, false, "Explain recursion", 1000,
        PillStatus.listening, false, false, true, false⟩ : WebState).isSending = false ∧
     jsTrim (⟨true, true, false, false, "Explain recursion", 1000,
        PillStatus.listening, false, false, true, false⟩ : WebState).currentTranscription ≠ "" ∧
     sendDebounceMs ≤ 1400 - (⟨true, true, false, false, "Explain recursion", 1000,
        PillStatus.listening, false, false, true, false⟩ : WebState).lastTranscriptionUpdate) ∧
    countSendToModel ((sendBtnClick ⟨true, true, false, false, "Explain recursion", 1000,
          PillStatus.listening, false, false, true, false⟩ 1400).2.1
        ++ (sendBtnClick (sendBtnClick ⟨true, true, false, false, "Explain recursion", 1000,
              PillStatus.listening, false, false, true, false⟩ 1400).1 (1400 + 10)).2.1) = 1 :=
  ⟨⟨rfl, by decide, by decide⟩,
   (send_guards ⟨true, true, false, false, "Explain recursion", 1000,
      PillStatus.listening, false, false, true, false⟩ 1400 rfl (by decide) (by decide)).2.2⟩

/-- Claim C2, amended: inside the quiescence window a send is deferred with
exactly one retry, scheduled for the remaining wait plus 50 ms; firing that
retry with the state otherwise unchanged issues exactly one `sendToModel` and
schedules nothing further. -/
theorem sendClick_defer_retry (s : WebState) (now : Nat)
    (hsend : s.isSending = false) (htr : jsTrim s.currentTranscription ≠ "")
    (hle : s.lastTranscriptionUpdate ≤ now)
    (hwin : now - s.lastTranscriptionUpdate < sendDebounceMs) :
    sendBtnClick s now
      = ({ s with status := PillStatus.finishing }, [],
         [(sendDebounceMs - (now - s.lastTranscriptionUpdate) + 50, TimerTask.retrySend)]) ∧
    countSendToModel
      (fireTask { s with status := PillStatus.finishing }
        (now + (sendDebounceMs - (now - s.lastTranscriptionUpdate) + 50))
        TimerTask.retrySend).2.1 = 1 ∧
    (fireTask { s with status := PillStatus.finishing }
        (now + (sendDebounceMs - (now - s.lastTranscriptionUpdate) + 50))
        TimerTask.retrySend).2.2 = [] := by
  have hq : ¬ ((now + (sendDebounceMs - (now - s.lastTranscriptionUpdate) + 50))
      - s.lastTranscriptionUpdate < sendDebounceMs) := by omega
  refine ⟨?_, ?_, ?_⟩
  · simp [sendBtnClick, hsend, htr, hwin]
  · simp only [fireTask, retryFire, sendBtnClick]
    by_cases hr : s.isRecording = true <;>
      simp [hr, hsend, htr, hq, countSendToModel, List.countP_cons, List.countP_nil]
  · simp only [fireTask, retryFire, sendBtnClick]
    by_cases hr : s.isRecording = true <;> simp [hr, hsend, htr, hq]

theorem sendClick_defer_retry_witness :
    ((⟨true, true, false, false, "hi there", 1000,
        PillStatus.listening, false, false, true, false⟩ : WebState).isSending = false ∧
     jsTrim (⟨true, true, false, false, "hi there", 1000,
        PillStatus.listening, false, false, true, false⟩ : WebState).currentTranscription ≠ "" ∧
     1000 ≤ 1100 ∧ 1100 - 1000 < sendDebounceMs) ∧
    sendBtnClick ⟨true, true, false, false, "hi there", 1000,
        PillStatus.listening, false, false, true, false⟩ 1100
      = (⟨true, true, false, false, "hi there", 1000,
          PillStatus.finishing, false, false, true, false⟩, [],
         [(sendDebounceMs - (1100 - 1000) + 50, TimerTask.retrySend)]) :=
  ⟨⟨rfl, by decide, by decide, by decide⟩,
   (sendClick_defer_retry ⟨true, true, false, false, "hi there", 1000,
      PillStatus.listening, false, false, true, false⟩ 1100 rfl (by decide)
      (by decide) (by decide)).1⟩

/-- Claim C2, counterexample: a send arriving 100 ms after the last
transcription update (inside the window, transcription non-empty) is
deferred; an `interrupted` message then clears the transcription, and the
single retry fires doing nothing at all — the send is dropped with no
message ever posted. -/
theorem sendClick_deferred_drop :
    (w2.isSending = false ∧ jsTrim w2.currentTranscription ≠ ""
      ∧ 1100 - w2.lastTranscriptionUpdate < sendDebounceMs) ∧
    (sendBtnClick w2 1100).2.1 = [] ∧
    (sendBtnClick w2 1100).2.2 = [(250, TimerTask.retrySend)] ∧
    (fireTask (webviewOnMessage (sendBtnClick w2 1100).1 1150 UiMsg.interrupted).1
        1350 TimerTask.retrySend)
      = ((webviewOnMessage (sendBtnClick w2 1100).1 1150 UiMsg.interrupted).1, [], []) := by
  decide

/-! ## Claims about the coordinator -/

/-- Claim C4, counterexample: with a disconnected client, interrupt only stops
playback: the buffers stay populated, no recording starts, no message is
posted — refuting the for-every-state claim. -/
theorem handleInterrupt_disconnected_noop :
    handleInterrupt c4state
      = (⟨some ⟨false, "pending words", "partial"⟩, false, false⟩, []) := by
  decide

/-- Claim C4, amended: with a connected client, interrupt stops playback,
clears both buffers, restarts capture at once, posts `interrupted` then
`recordingStarted`; the webview processes them into a recording state with an
empty transcription and, 500 ms later, a listening status. -/
theorem handleInterrupt_connected (c : Coord) (g : GeminiState) (w : WebState) (now : Nat)
    (hg : c.gemini = some g) (hc : g.connected = true) :
    handleInterrupt c
      = (⟨some ⟨true, "", ""⟩, true, false⟩, [UiMsg.interrupted, UiMsg.recordingStarted]) ∧
    (webviewOnMessage w now UiMsg.interrupted).2 = [(500, TimerTask.statusToListening)] ∧
    (webviewOnMessage (webviewOnMessage w now UiMsg.interrupted).1 now
        UiMsg.recordingStarted).1.isRecording = true ∧
    (webviewOnMessage (webviewOnMessage w now UiMsg.interrupted).1 now
        UiMsg.recordingStarted).1.currentTranscription = "" ∧
    (fireTask (webviewOnMessage (webviewOnMessage w now UiMsg.interrupted).1 now
        UiMsg.recordingStarted).1 (now + 500) TimerTask.statusToListening).1.status
      = PillStatus.listening := by
  refine ⟨?_, rfl, rfl, rfl, rfl⟩
  simp [handleInterrupt, hg, hc, GeminiState.resetTranscription, GeminiState.interruptOp]

theorem handleInterrupt_connected_witness :
    ((⟨some ⟨true, "words", "resp"⟩, false, true⟩ : Coord).gemini
        = some ⟨true, "words", "resp"⟩ ∧
     (⟨true, "words", "resp"⟩ : GeminiState).connected = true) ∧
    handleInterrupt ⟨some ⟨true, "words", "resp"⟩, false, true⟩
      = (⟨some ⟨true, "", ""⟩, true, false⟩, [UiMsg.interrupted, UiMsg.recordingStarted]) :=
  ⟨⟨rfl, rfl⟩,
   (handleInterrupt_connected ⟨some ⟨true, "words", "resp"⟩, false, true⟩
      ⟨true, "words", "resp"⟩
      ⟨false, false, true, true, "", 0, PillStatus.speaking, true, true, false, false⟩
      2000 rfl rfl).1⟩

/-- Claim C8: hard stop from any coordinator state kills capture and playback,
disconnects (buffers cleared) and discards the client, posts `hardStopped`;
a subsequent start constructs a fresh client with empty buffers. -/
theorem handleHardStop_resets (c : Coord) (g : GeminiState) :
    handleHardStop c = (⟨none, false, false⟩, [UiMsg.hardStopped]) ∧
    (GeminiState.disconnectOp g).connected = false ∧
    (GeminiState.disconnectOp g).currentTranscription = "" ∧
    (GeminiState.disconnectOp g).currentModelResponse = "" ∧
    startRecordingStep (handleHardStop c).1 = (⟨some freshGemini, false, false⟩, []) ∧
    freshGemini.currentTranscription = "" ∧ freshGemini.currentModelResponse = "" := by
  have h1 : handleHardStop c = (⟨none, false, false⟩, [UiMsg.hardStopped]) := by
    rcases c with ⟨og, cap, pl⟩
    cases og <;> simp [handleHardStop]
  refine ⟨h1, rfl, rfl, rfl, ?_, rfl, rfl⟩
  rw [h1]
  simp [startRecordingStep]

theorem handleHardStop_resets_witness :
    handleHardStop ⟨some ⟨true, "buffered text", "partial reply"⟩, true, true⟩
      = (⟨none, false, false⟩, [UiMsg.hardStopped]) ∧
    (GeminiState.disconnectOp ⟨true, "buffered text", "partial reply"⟩).connected = false ∧
    (GeminiState.disconnectOp ⟨true, "buffered text", "partial reply"⟩).currentTranscription = "" ∧
    (GeminiState.disconnectOp ⟨true, "buffered text", "partial reply"⟩).currentModelResponse = "" ∧
    startRecordingStep
        (handleHardStop ⟨some ⟨true, "buffered text", "partial reply"⟩, true, true⟩).1
      = (⟨some freshGemini, false, false⟩, []) ∧
    freshGemini.currentTranscription = "" ∧ freshGemini.currentModelResponse = "" :=
  handleHardStop_resets ⟨some ⟨true, "buffered text", "partial reply"⟩, true, true⟩
    ⟨true, "buffered text", "partial reply"⟩

/-- Claim C5, code bug: on the empty-model-response path `handleSendToModel`
posts only `thinking` and returns: no `audioComplete` and no error ever
reaches the UI, so the webview stays locked in the thinking state. -/
theorem handleSendToModel_empty_response_silent :
    (handleSendToModel c5coord c5env).2.1 = [UiMsg.thinking] ∧
    UiMsg.audioComplete ∉ (handleSendToModel c5coord c5env).2.1 := by
  decide

/-- Claim C6, counterexample: a send with no connected Session emits only
`audioComplete`: no error message is surfaced, refuting the claim that this
path surfaces an error. -/
theorem handleSendToModel_notConnected_no_error :
    handleSendToModel c6coord c6env = (c6coord, [UiMsg.audioComplete], []) ∧
    UiMsg.errorMsg "Failed to get response: " ∉ (handleSendToModel c6coord c6env).2.1 := by
  decide

/-- Claim C6, amended: a not-connected send is abandoned with a bare
`audioComplete` (no error, no TTS, no playback); a failed or timed-out turn
surfaces an error and performs no TTS or playback; both terminal messages
return the webview to a start-capable state (send lock released, start button
shown). -/
theorem handleSendToModel_error_paths (c : Coord) (env : SendEnv) (g : GeminiState)
    (e : String) (w : WebState) (n : Nat) :
    (c.gemini = none → handleSendToModel c env = (c, [UiMsg.audioComplete], [])) ∧
    (c.gemini = some g → g.connected = false →
        handleSendToModel c env = (c, [UiMsg.audioComplete], [])) ∧
    (c.gemini = some g → g.connected = true → env.turn = Except.error e →
        (handleSendToModel c env).2.1
          = [UiMsg.thinking, UiMsg.errorMsg ("Failed to get response: " ++ e)] ∧
        (handleSendToModel c env).2.2 = []) ∧
    ((webviewOnMessage w n (UiMsg.errorMsg e)).1.isSending = false ∧
     (webviewOnMessage w n (UiMsg.errorMsg e)).1.startBtnHidden = false) ∧
    ((webviewOnMessage w n UiMsg.audioComplete).1.isSending = false ∧
     (webviewOnMessage w n UiMsg.audioComplete).1.startBtnHidden = false) := by
  refine ⟨?_, ?_, ?_, ⟨rfl, rfl⟩, ⟨rfl, rfl⟩⟩
  · intro h; simp [handleSendToModel, h]
  · intro h1 h2; simp [handleSendToModel, h1, h2]
  · intro h1 h2 h3; simp [handleSendToModel, h1, h2, h3]

theorem handleSendToModel_error_paths_witness :
    (handleSendToModel ⟨some ⟨true, "ask", ""⟩, true, false⟩
        ⟨Except.error "Model response timeout - no response received", true, true, true, ""⟩).2.1
      = [UiMsg.thinking,
         UiMsg.errorMsg
           ("Failed to get response: " ++ "Model response timeout - no response received")] ∧
    (handleSendToModel ⟨some ⟨true, "ask", ""⟩, true, false⟩
        ⟨Except.error "Model response timeout - no response received", true, true, true, ""⟩).2.2
      = [] :=
  (handleSendToModel_error_paths ⟨some ⟨true, "ask", ""⟩, true, false⟩
    ⟨Except.error "Model response timeout - no response received", true, true, true, ""⟩
    ⟨true, "ask", ""⟩ "Model response timeout - no response received"
    ⟨false, false, true, true, "", 0, PillStatus.thinkingSt, true, true, false, false⟩
    0).2.2.1 rfl rfl rfl
